import Mathlib

/-!
Shallow embedding of the core request pipeline of the Z.AI web-search client
(`src/agent/web_search_agent.py`, `rate_limiter.py`, `auth.py`, `models.py`,
`exceptions.py`).  Machine floats of the Python source are modelled as `ℚ`
(every operation the claims exercise — doubling, `min`, comparison with small
decimal constants — is exact in binary floating point, so `ℚ` is faithful on
the inputs considered).  JSON payloads are modelled by an explicit `Json`
type; top-level payloads and error bodies are association lists, matching the
code's use of them as Python dicts.
-/

/-- JSON values, as delivered by `response.json()`. -/
inductive Json where
  | null : Json
  | bool (b : Bool) : Json
  | num (q : ℚ) : Json
  | str (s : String) : Json
  | arr (elems : List Json) : Json
  | obj (fields : List (String × Json)) : Json

/-- A parsed top-level JSON object (a Python dict). -/
abbrev Payload := List (String × Json)

/-- Python truthiness of a JSON value (`if retry_after:` etc.):
numbers are falsy iff zero, strings iff empty, containers iff empty. -/
def pyTruthy : Json → Bool
  | .null => false
  | .bool b => b
  | .num q => !(q = 0 : Bool)
  | .str s => !s.isEmpty
  | .arr xs => !xs.isEmpty
  | .obj kvs => !kvs.isEmpty

/-- Digits-to-value accumulator for Python `float(str)` parsing. -/
def natVal (cs : List Char) : ℚ :=
  cs.foldl (fun a c => 10 * a + ((c.toNat : ℚ) - 48)) 0

/-- Python `str.split(sep)` on a list of characters: keeps empty pieces,
`[] ↦ [[]]`. -/
def splitChar (sep : Char) : List Char → List (List Char)
  | [] => [[]]
  | c :: cs =>
    let r := splitChar sep cs
    if c = sep then [] :: r
    else
      match r with
      | [] => [[c]]
      | h :: t => (c :: h) :: t

/-- Python `str.split(sep)` (`url.split("/")` in the transformer). -/
def pySplit (sep : Char) (s : String) : List String :=
  (splitChar sep s.data).map String.mk

/-- Python `float(s)` on the plain decimal forms `digits`, `digits.digits`,
`.digits`, `digits.` with no sign.  Exotic accepted forms (exponents,
`inf`/`nan`, surrounding whitespace, underscores) are not modelled; no claim
exercises them. -/
def parseUnsignedFloat (cs : List Char) : Option ℚ :=
  match splitChar '.' cs with
  | [ip] => if !ip.isEmpty && ip.all Char.isDigit then some (natVal ip) else none
  | [ip, fp] =>
      if (!ip.isEmpty || !fp.isEmpty) && ip.all Char.isDigit && fp.all Char.isDigit then
        some (natVal ip + natVal fp / 10 ^ fp.length)
      else none
  | _ => none

/-- Python `float(v)` for a JSON value: numbers pass through, booleans become
0/1, decimal strings parse (with optional sign); everything else raises
(`none` models the uncaught `ValueError`/`TypeError`). -/
def pyFloat : Json → Option ℚ
  | .num q => some q
  | .bool b => some (if b then 1 else 0)
  | .str s =>
      match s.data with
      | '+' :: rest => parseUnsignedFloat rest
      | '-' :: rest => (parseUnsignedFloat rest).map Neg.neg
      | cs => parseUnsignedFloat cs
  | _ => none

/-- The closed set of typed failure classes of `exceptions.py`:
`ZAIApiError` (base), `ZAIAuthenticationError`, `ZAIRateLimitError`,
`ZAIInvalidRequestError`, `ZAIServerError`. -/
inductive ZErrorKind where
  | apiFailure : ZErrorKind
  | authenticationFailure : ZErrorKind
  | rateLimitExceeded : ZErrorKind
  | invalidRequest : ZErrorKind
  | serverFailure : ZErrorKind
  deriving DecidableEq

/-- A raised `ZAIApiError` (or subclass): its Python class (`kind`), message,
optional HTTP status, and response data (the constructor turns an absent
`response_data` into `{}`, so the model uses a plain list with `[]` for it). -/
structure ZError where
  kind : ZErrorKind
  message : String
  status_code : Option Nat
  response_data : Payload

/-- The body of an HTTP response as seen by `_make_request`:
empty `response.content`, a body that parses as a JSON object, or a body on
which `response.json()` raises. -/
inductive Body where
  | empty : Body
  | parseable (kvs : Payload) : Body
  | unparseable (msg : String) : Body

/-- Outcome of the single `requests.get` call: the three exception families
the source catches, or a response with a status code and a body. -/
inductive NetOutcome where
  | timeout : NetOutcome
  | connectionError : NetOutcome
  | requestException (msg : String) : NetOutcome
  | response (status : Nat) (body : Body) : NetOutcome

/-- `response.json() if response.content else {}` in the error branches of
`_make_request`; `.error` is the `JSONDecodeError` the call may raise. -/
def error_body : Body → Except String Payload
  | .empty => .ok []
  | .parseable kvs => .ok kvs
  | .unparseable m => .error m

/-- A failed `response.json()` raises `requests.exceptions.JSONDecodeError`,
a `RequestException` subclass, so it is caught by the
`except requests.exceptions.RequestException` clause of `_make_request` and
re-raised as `ZAIApiError(f"Request failed: {str(e)}")`. -/
def parse_failure (m : String) : ZError :=
  ⟨.apiFailure, "Request failed: " ++ m, none, []⟩

/-- One classified error branch of `_make_request`: read the error body,
then raise the typed error carrying status code and parsed data. -/
def classified (k : ZErrorKind) (msg : String) (status : Nat) (body : Body) :
    Except ZError Payload :=
  match error_body body with
  | .ok d => .error ⟨k, msg, some status, d⟩
  | .error m => .error (parse_failure m)

/-- `WebSearchAgent._make_request`: the single-attempt transport.
`hasAuthenticator` is whether `self.authenticator` is non-`None`;
`timeout` is `self.config.timeout`; `net` is what the network does. -/
def make_request (hasAuthenticator : Bool) (timeout : Nat) (net : NetOutcome) :
    Except ZError Payload :=
  if !hasAuthenticator then
    .error ⟨.authenticationFailure,
      "No authenticator available. Please provide valid API credentials.", none, []⟩
  else
    match net with
    | .timeout =>
        .error ⟨.apiFailure, "Request timed out after " ++ toString timeout ++ " seconds",
          none, []⟩
    | .connectionError =>
        .error ⟨.apiFailure, "Failed to connect to the Z.AI API", none, []⟩
    | .requestException m =>
        .error ⟨.apiFailure, "Request failed: " ++ m, none, []⟩
    | .response status body =>
        if status = 401 then
          classified .authenticationFailure
            "Authentication failed. Please check your API key." status body
        else if status = 429 then
          classified .rateLimitExceeded
            "Rate limit exceeded. Please try again later." status body
        else if status = 400 then
          classified .invalidRequest
            "Invalid request. Please check your parameters." status body
        else if 500 ≤ status ∧ status < 600 then
          classified .serverFailure
            ("Server error with status code " ++ toString status) status body
        else if status ≠ 200 then
          classified .apiFailure
            ("API request failed with status code " ++ toString status) status body
        else
          match body with
          | .parseable kvs => .ok kvs
          | .empty => .error (parse_failure "Expecting value: line 1 column 1 (char 0)")
          | .unparseable m => .error (parse_failure m)

/-- Domain extraction of `_transform_api_response`:
`url.split("/")[2] if "/" in url and len(url.split("/")) > 2 else ""`. -/
def extract_domain (url : String) : String :=
  if url.data.contains '/' && (pySplit '/' url).length > 2 then
    (pySplit '/' url).getD 2 ""
  else ""

/-- Result of the retry loop `_make_request_with_retry`: a returned payload,
a raised typed error, or an uncaught non-`ZAIApiError` exception (the
`float(retry_after)` `ValueError`). -/
inductive RetryResult where
  | success (payload : Payload) : RetryResult
  | failure (e : ZError) : RetryResult
  | untypedError (msg : String) : RetryResult

/-- Prepend a slept duration to a retry-loop trace. -/
def prependSleep (q : ℚ) : RetryResult × Nat × List ℚ → RetryResult × Nat × List ℚ
  | (r, n, s) => (r, n, q :: s)

/-- The `raise last_exception or ZAIApiError(...)` exit of the retry loop. -/
def exhaustResult : Option ZError → RetryResult
  | some e => .failure e
  | none => .failure ⟨.apiFailure, "Request failed after maximum retries", none, []⟩

/-- The `while retry_count <= max_retries` loop of `_make_request_with_retry`.
`attempts i` is the outcome of the `i`-th call of `self._make_request`
(transport behaviour over time); `inv` is the number of calls made so far,
which also indexes the next attempt.  Every iteration that continues the loop
increments `retry_count` by exactly one, so remaining fuel
`max_retries + 1 - retry_count` decreases by one per iteration and reaching
`0` is exactly the loop-exit re-raise.  Returns (outcome, number of transport
invocations, list of slept durations in order). -/
def retryGo (max_backoff : ℚ) (attempts : Nat → Except ZError Payload) :
    Nat → ℚ → Option ZError → Nat → RetryResult × Nat × List ℚ
  | inv, _, last, 0 => (exhaustResult last, inv, [])
  | inv, backoff, _, fuel + 1 =>
    match attempts inv with
    | .ok payload => (.success payload, inv + 1, [])
    | .error e =>
      match e.kind with
      | .authenticationFailure => (.failure e, inv + 1, [])
      | .invalidRequest => (.failure e, inv + 1, [])
      | .rateLimitExceeded =>
        -- `retry_after = e.response_data['retry_after'] if ... else None`,
        -- then `if retry_after:` (truthiness), then `float(retry_after)`.
        match e.response_data.lookup "retry_after" with
        | some v =>
          if pyTruthy v then
            match pyFloat v with
            | some q => prependSleep q (retryGo max_backoff attempts (inv + 1) backoff (some e) fuel)
            | none => (.untypedError "could not convert retry_after to float", inv + 1, [])
          else
            prependSleep backoff (retryGo max_backoff attempts (inv + 1)
              (min (backoff * 2) max_backoff) (some e) fuel)
        | none =>
            prependSleep backoff (retryGo max_backoff attempts (inv + 1)
              (min (backoff * 2) max_backoff) (some e) fuel)
      | _ =>
        -- `except (ZAIApiError, RequestException)`: catches `ZAIServerError`
        -- and base `ZAIApiError`; note `last_exception = ZAIApiError(str(e))`
        -- rebuilds a base error from the message alone.
        prependSleep backoff (retryGo max_backoff attempts (inv + 1)
          (min (backoff * 2) max_backoff)
          (some ⟨.apiFailure, e.message, none, []⟩) fuel)

/-- `WebSearchAgent._make_request_with_retry` (after the single up-front
`rate_limiter.wait_if_needed()` admission call, which is outside the loop and
independent of the retry trace). -/
def make_request_with_retry (max_retries : Nat) (initial_backoff max_backoff : ℚ)
    (attempts : Nat → Except ZError Payload) : RetryResult × Nat × List ℚ :=
  retryGo max_backoff attempts 0 initial_backoff none (max_retries + 1)

/-- `RateLimiter` state (`rate_limiter.py`): timestamps and tokens as `ℚ`. -/
structure RateLimiter where
  max_requests : Nat
  time_window : Nat
  tokens : ℚ
  last_refill : ℚ

/-- `RateLimiter.__init__` state (the constructor also validates
`max_requests > 0` and `time_window > 0`, mirrored as hypotheses where
needed): a full bucket stamped with the current time. -/
def RateLimiter.init (max_requests time_window : Nat) (now : ℚ) : RateLimiter :=
  ⟨max_requests, time_window, (max_requests : ℚ), now⟩

/-- `RateLimiter._refill_tokens`, with `time.time()` passed explicitly. -/
def refill_tokens (s : RateLimiter) (now : ℚ) : RateLimiter :=
  let elapsed := now - s.last_refill
  let tokens_to_add := elapsed * ((s.max_requests : ℚ) / (s.time_window : ℚ))
  { s with tokens := min (s.max_requests : ℚ) (s.tokens + tokens_to_add),
           last_refill := now }

/-- `RateLimiter.acquire_token`: refill, then take a token if at least one is
available. -/
def acquire_token (s : RateLimiter) (now : ℚ) : Bool × RateLimiter :=
  let s' := refill_tokens s now
  if 1 ≤ s'.tokens then (true, { s' with tokens := s'.tokens - 1 })
  else (false, s')

/-- A sequence of `n` successive `acquire_token` calls at one instant,
returning the results in order and the final state. -/
def acquireRun : RateLimiter → ℚ → Nat → List Bool × RateLimiter
  | s, _, 0 => ([], s)
  | s, now, n + 1 =>
    let p := acquire_token s now
    let rest := acquireRun p.2 now n
    (p.1 :: rest.1, rest.2)

/-- The `SearchResult` model of `models.py` as the transformer constructs it.
pydantic's lenient cross-type coercions apply only to ill-typed payloads,
which no behaviour in scope produces; field extraction below rejects them. -/
structure SearchResult where
  title : String
  url : String
  snippet : String
  position : Int
  domain : String
  published_date : Option String
  thumbnail_url : Option String
  deriving DecidableEq

/-- The `SearchResponse` model of `models.py`. -/
structure SearchResponse where
  query : String
  search_type : String
  total_results : Int
  results : List SearchResult
  search_time : ℚ
  has_more : Bool
  next_page_token : Option String
  deriving DecidableEq

/-- `d.get(key, default)` for a string-valued field; `none` models a
pydantic validation failure on a non-string value. -/
def getStrD (kvs : Payload) (key : String) (dflt : String) : Option String :=
  match kvs.lookup key with
  | none => some dflt
  | some (.str s) => some s
  | some _ => none

/-- `d.get(key)` for an `Optional[str]` field: absent and JSON `null` both
become `None`. -/
def getOptStr (kvs : Payload) (key : String) : Option (Option String) :=
  match kvs.lookup key with
  | none => some none
  | some .null => some none
  | some (.str s) => some (some s)
  | some _ => none

/-- `d.get(key, default)` for an integer field; accepts exact integers. -/
def getIntD (kvs : Payload) (key : String) (dflt : Int) : Option Int :=
  match kvs.lookup key with
  | none => some dflt
  | some (.num q) => if q.den = 1 then some q.num else none
  | some _ => none

/-- One iteration of the result loop of `_transform_api_response`: extract
fields with their defaults, derive `domain` from the url. -/
def transformResult (kvs : Payload) : Option SearchResult := do
  let url ← getStrD kvs "url" ""
  let title ← getStrD kvs "title" ""
  let snippet ← getStrD kvs "snippet" ""
  let position ← getIntD kvs "position" 0
  let pd ← getOptStr kvs "published_date"
  let tu ← getOptStr kvs "thumbnail_url"
  some ⟨title, url, snippet, position, extract_domain url, pd, tu⟩

/-- `WebSearchAgent._transform_api_response` on the parsed payload and the
originating request's `query`/`search_type`.  `none` models the pydantic
`ValidationError` raised when a payload does not fit the models. -/
def transform_api_response (api_response : Payload)
    (req_query req_search_type : String) : Option SearchResponse := do
  let entries ← match api_response.lookup "results" with
    | none => some []
    | some (.arr xs) => some xs
    | some _ => none
  let results ← entries.mapM fun j =>
    match j with
    | .obj kvs => transformResult kvs
    | _ => none
  let total ← getIntD api_response "total_results" (results.length : Int)
  let search_time ←
    match api_response.lookup "search_time" with
    | none => some (0 : ℚ)
    | some (.num q) => some q
    | some _ => none
  let has_more ←
    match api_response.lookup "has_more" with
    | none => some false
    | some (.bool b) => some b
    | some _ => none
  let tok ← getOptStr api_response "next_page_token"
  some ⟨req_query, req_search_type, total, results, search_time, has_more, tok⟩

/-- Python truthiness of an optional string (`if api_key:` in `auth.py` and
`web_search_agent.py`): `None` and `""` are falsy. -/
def optStrTruthy : Option String → Bool
  | none => false
  | some s => !s.isEmpty

/-- `ZAIAuthenticator.API_KEY_PATTERN`: `^[a-zA-Z0-9._-]{20,}$` (the
`re.match` allowance of one trailing newline before `$` is not modelled; no
behaviour in scope exercises it). -/
def valid_api_key_format (s : String) : Bool :=
  s.length ≥ 20 && s.data.all fun c => c.isAlphanum || c = '.' || c = '_' || c = '-'

/-- A constructed `ZAIAuthenticator` (its only state is the key). -/
structure Authenticator where
  api_key : String
  deriving DecidableEq

/-- `ZAIAuthenticator.__init__`: pick the key from the explicit argument,
else from the config (both under Python truthiness), else raise
`ZAIAuthenticationError`; then `_validate_api_key` raises
`ZAIInvalidRequestError` on a format mismatch.  `config_api_key` is
`config.api_key` when a config object is passed, `none` when not. -/
def authenticator_init (config_api_key : Option String) (api_key : Option String) :
    Except ZError Authenticator :=
  let key? : Except ZError String :=
    if optStrTruthy api_key then .ok (api_key.getD "")
    else if optStrTruthy config_api_key then .ok (config_api_key.getD "")
    else .error ⟨.authenticationFailure, "API key is required for authentication", none, []⟩
  match key? with
  | .error e => .error e
  | .ok key =>
    if key.isEmpty then .error ⟨.invalidRequest, "API key cannot be empty", none, []⟩
    else if !valid_api_key_format key then
      .error ⟨.invalidRequest,
        "Invalid API key format. Must be at least 20 characters with alphanumeric, dots, underscores, or hyphens",
        none, []⟩
    else .ok ⟨key⟩

/-- The authenticator-selection logic of `WebSearchAgent.__init__`: a passed
authenticator wins; else a truthy `api_key` argument builds one (errors
propagate); else build from the config, turning a `ZAIAuthenticationError`
into `self.authenticator = None` (and letting any other error escape).
`config_api_key` is the `api_key` of the (present) config object; a call with
no config at all would construct `ZAIConfig()` from the environment, which is
outside this model. -/
def agent_init_authenticator (authenticator : Option Authenticator)
    (api_key : Option String) (config_api_key : String) :
    Except ZError (Option Authenticator) :=
  match authenticator with
  | some a => .ok (some a)
  | none =>
    if optStrTruthy api_key then
      (authenticator_init none api_key).map some
    else
      match authenticator_init (some config_api_key) none with
      | .ok a => .ok (some a)
      | .error e =>
        if e.kind = .authenticationFailure then .ok none else .error e

/-- The `SearchRequest` model of `models.py` (field values as constructed;
validation is separate, as pydantic runs it on construction). -/
structure SearchRequest where
  query : String
  num_results : Int
  include_domains : Option (List String)
  exclude_domains : Option (List String)
  search_type : String
  language : Option String
  region : Option String
  safe_search : String
  deriving DecidableEq

/-- The pydantic validation of `SearchRequest`: `num_results` bounds
(`ge=1, le=20`), the `search_type` / `safe_search` validators, and the
2-letter checks on `language` / `region` (which skip falsy values).  Returns
the list of violated-field tags collected into the single
`pydantic.ValidationError`. -/
def search_request_errors (r : SearchRequest) : List String :=
  (if r.num_results < 1 ∨ 20 < r.num_results then ["num_results"] else []) ++
  (if r.search_type ∉ (["web", "news", "images"] : List String) then ["search_type"] else []) ++
  (match r.language with
   | some s => if !s.isEmpty && s.length ≠ 2 then ["language"] else []
   | none => []) ++
  (match r.region with
   | some s => if !s.isEmpty && s.length ≠ 2 then ["region"] else []
   | none => []) ++
  (if r.safe_search ∉ (["moderate", "strict", "off"] : List String) then ["safe_search"] else [])

/-- `SearchRequest(...)` construction: pydantic raises a `ValidationError`
listing every violated field, or yields the model. -/
def mk_search_request (r : SearchRequest) : Except (List String) SearchRequest :=
  match search_request_errors r with
  | [] => .ok r
  | errs => .error errs

/-- What a caller of `WebSearchAgent.search` / `search_with_request` can
observe: a response, a raised typed `ZAIApiError`-family failure, a raised
pydantic `ValidationError` (not one of the typed kinds of `exceptions.py`),
or another untyped exception (e.g. the `float(retry_after)` `ValueError`). -/
inductive SearchOutcome where
  | response (r : SearchResponse) : SearchOutcome
  | typedFailure (e : ZError) : SearchOutcome
  | validationError (fields : List String) : SearchOutcome
  | untypedError (msg : String) : SearchOutcome

/-- `WebSearchAgent.search`: build and validate the `SearchRequest` (a
`ValidationError` escapes before any transport call), run
`_make_request_with_retry`, then `_transform_api_response` (whose pydantic
failure on an ill-shaped payload is also an untyped escape).  Returns the
outcome together with the number of transport invocations performed. -/
def search (r : SearchRequest) (max_retries : Nat) (initial_backoff max_backoff : ℚ)
    (attempts : Nat → Except ZError Payload) : SearchOutcome × Nat :=
  match mk_search_request r with
  | .error errs => (.validationError errs, 0)
  | .ok req =>
    let out := make_request_with_retry max_retries initial_backoff max_backoff attempts
    match out.1 with
    | .success payload =>
      match transform_api_response payload req.query req.search_type with
      | some resp => (.response resp, out.2.1)
      | none => (.untypedError "response model validation", out.2.1)
    | .failure e => (.typedFailure e, out.2.1)
    | .untypedError m => (.untypedError m, out.2.1)

/-- A failure the retry loop retries (§7 retryable kinds), whose
`retry_after` handling cannot raise the uncaught `float` conversion error:
the value is absent, falsy, or convertible. -/
def raOk (e : ZError) : Bool :=
  match e.response_data.lookup "retry_after" with
  | none => true
  | some v => !pyTruthy v || (pyFloat v).isSome

/-- The §7 kinds the retry controller retries. -/
def retryable_kind : ZErrorKind → Bool
  | .rateLimitExceeded => true
  | .serverFailure => true
  | .apiFailure => true
  | _ => false

/-- A retryable failure whose handling stays inside the typed world. -/
def retryable (e : ZError) : Bool :=
  retryable_kind e.kind && raOk e

/-- What the loop records as `last_exception` for a failure of kind `k`:
`ZAIRateLimitError` is stored as-is, while the `except (ZAIApiError, ...)`
clause stores `ZAIApiError(str(e))` — a fresh base error keeping only the
message. -/
def exhaustWrap (e : ZError) : ZError :=
  if e.kind = .rateLimitExceeded then e
  else ⟨.apiFailure, e.message, none, []⟩

/-- A retryable failure that takes the exponential-backoff branch (no truthy
server-specified `retry_after`). -/
def backoff_branch (e : ZError) : Bool :=
  match e.kind with
  | .serverFailure => true
  | .apiFailure => true
  | .rateLimitExceeded =>
    match e.response_data.lookup "retry_after" with
    | none => true
    | some v => !pyTruthy v
  | _ => false

/-- The capped doubling sequence `min(2 ^ n × initial, cap)` for
`initial = 1`: the n-th backoff value of the controller. -/
def capSeq (cap : ℚ) (n : Nat) : ℚ :=
  min (2 ^ n) cap

/-- Whether a caller-visible outcome is a successful response or a typed
failure of the closed §7 set (as opposed to an untyped escape). -/
def typed_or_response : SearchOutcome → Bool
  | .response _ => true
  | .typedFailure _ => true
  | .validationError _ => false
  | .untypedError _ => false

/-- A sample `ZAIServerError` as `_make_request` raises it for a 5xx with a
parsed body. -/
def serverBoom : ZError :=
  ⟨.serverFailure, "boom", some 500, [("detail", Json.str "x")]⟩

/-- A sample `ZAIAuthenticationError` as raised for an HTTP 401. -/
def authFatal : ZError :=
  ⟨.authenticationFailure, "Authentication failed. Please check your API key.",
    some 401, []⟩

/-- A sample `ZAIRateLimitError` whose body carries `retry_after: 0`. -/
def rateLimitZero : ZError :=
  ⟨.rateLimitExceeded, "Rate limit exceeded. Please try again later.",
    some 429, [("retry_after", Json.num 0)]⟩

/-- A sample `ZAIRateLimitError` whose body carries `retry_after: 5`. -/
def rateLimitFive : ZError :=
  ⟨.rateLimitExceeded, "Rate limit exceeded. Please try again later.",
    some 429, [("retry_after", Json.num 5)]⟩

/-- The `ZAIAuthenticationError` `_make_request` raises when
`self.authenticator` is `None`, before any network call. -/
def noAuthenticatorError : ZError :=
  ⟨.authenticationFailure,
    "No authenticator available. Please provide valid API credentials.", none, []⟩

/-- A `SearchRequest` whose `num_results` violates the `ge=1` bound. -/
def badRequest : SearchRequest :=
  ⟨"q", 0, none, none, "web", none, none, "moderate"⟩

lemma prependSleep_fst (q : ℚ) (p : RetryResult × Nat × List ℚ) :
    (prependSleep q p).1 = p.1 := by
  rcases p with ⟨r, n, s⟩; rfl

lemma prependSleep_count (q : ℚ) (p : RetryResult × Nat × List ℚ) :
    (prependSleep q p).2.1 = p.2.1 := by
  rcases p with ⟨r, n, s⟩; rfl

lemma prependSleep_sleeps (q : ℚ) (p : RetryResult × Nat × List ℚ) :
    (prependSleep q p).2.2 = q :: p.2.2 := by
  rcases p with ⟨r, n, s⟩; rfl

lemma retryGo_fatal (mb : ℚ) (att : Nat → Except ZError Payload) (inv : Nat)
    (b : ℚ) (last : Option ZError) (fuel : Nat) (e : ZError)
    (he : att inv = .error e)
    (hk : e.kind = .authenticationFailure ∨ e.kind = .invalidRequest) :
    retryGo mb att inv b last (fuel + 1) = (.failure e, inv + 1, []) := by
  rcases e with ⟨k, msg, sc, rd⟩
  rcases hk with hk | hk <;> subst hk <;> simp [retryGo, he]

lemma retryGo_backoff_step (mb : ℚ) (att : Nat → Except ZError Payload) (inv : Nat)
    (b : ℚ) (last : Option ZError) (fuel : Nat) (e : ZError)
    (he : att inv = .error e) (hb : backoff_branch e = true) :
    retryGo mb att inv b last (fuel + 1) =
      prependSleep b
        (retryGo mb att (inv + 1) (min (b * 2) mb) (some (exhaustWrap e)) fuel) := by
  rcases e with ⟨k, msg, sc, rd⟩
  cases k with
  | apiFailure => simp [retryGo, he, exhaustWrap]
  | serverFailure => simp [retryGo, he, exhaustWrap]
  | rateLimitExceeded =>
    cases hl : rd.lookup "retry_after" with
    | none => simp [retryGo, he, hl, exhaustWrap]
    | some v =>
      have ht : pyTruthy v = false := by
        simpa [backoff_branch, hl] using hb
      simp [retryGo, he, hl, ht, exhaustWrap]
  | authenticationFailure => simp [backoff_branch] at hb
  | invalidRequest => simp [backoff_branch] at hb

lemma retryGo_override_step (mb : ℚ) (att : Nat → Except ZError Payload) (inv : Nat)
    (b : ℚ) (last : Option ZError) (fuel : Nat) (e : ZError) (v : Json) (q : ℚ)
    (he : att inv = .error e) (hk : e.kind = .rateLimitExceeded)
    (hv : e.response_data.lookup "retry_after" = some v)
    (ht : pyTruthy v = true) (hf : pyFloat v = some q) :
    retryGo mb att inv b last (fuel + 1) =
      prependSleep q (retryGo mb att (inv + 1) b (some e) fuel) := by
  rcases e with ⟨k, msg, sc, rd⟩
  cases k <;> simp_all [retryGo]

lemma retryGo_retryable_step (mb : ℚ) (att : Nat → Except ZError Payload) (inv : Nat)
    (b : ℚ) (last : Option ZError) (fuel : Nat) (e : ZError)
    (he : att inv = .error e) (hr : retryable e = true) :
    ∃ q b2, retryGo mb att inv b last (fuel + 1) =
      prependSleep q (retryGo mb att (inv + 1) b2 (some (exhaustWrap e)) fuel) := by
  by_cases hb : backoff_branch e = true
  · exact ⟨b, min (b * 2) mb, retryGo_backoff_step mb att inv b last fuel e he hb⟩
  · have hparts : retryable_kind e.kind = true ∧ raOk e = true := by
      simpa [retryable] using hr
    have hk : e.kind = .rateLimitExceeded := by
      rcases e with ⟨k, msg, sc, rd⟩
      cases k <;> simp_all [retryable_kind, backoff_branch]
    cases hl : e.response_data.lookup "retry_after" with
    | none =>
      exfalso
      apply hb
      simp only [backoff_branch, hk, hl]
    | some v =>
      have ht : pyTruthy v = true := by
        by_contra hcon
        apply hb
        simp only [backoff_branch, hk, hl]
        simp only [Bool.not_eq_true] at hcon
        simp [hcon]
      have hfs : (pyFloat v).isSome = true := by
        have h' := hparts.2
        simp only [raOk, hl] at h'
        rw [ht] at h'
        simpa using h'
      obtain ⟨q, hq⟩ := Option.isSome_iff_exists.mp hfs
      have hw : exhaustWrap e = e := by simp [exhaustWrap, hk]
      refine ⟨q, b, ?_⟩
      rw [hw]
      exact retryGo_override_step mb att inv b last fuel e v q he hk hl ht hq

lemma retryGo_exhaust (mb : ℚ) (att : Nat → Except ZError Payload) (es : Nat → ZError)
    (he : ∀ i, att i = .error (es i)) (hr : ∀ i, retryable (es i) = true)
    (fuel : Nat) :
    ∀ inv b last,
      (retryGo mb att inv b last (fuel + 1)).1 = .failure (exhaustWrap (es (inv + fuel)))
      ∧ (retryGo mb att inv b last (fuel + 1)).2.1 = inv + fuel + 1 := by
  induction fuel with
  | zero =>
    intro inv b last
    obtain ⟨q, b2, hstep⟩ :=
      retryGo_retryable_step mb att inv b last 0 (es inv) (he inv) (hr inv)
    rw [hstep, prependSleep_fst, prependSleep_count]
    simp [retryGo, exhaustResult]
  | succ f ih =>
    intro inv b last
    obtain ⟨q, b2, hstep⟩ :=
      retryGo_retryable_step mb att inv b last (f + 1) (es inv) (he inv) (hr inv)
    rw [hstep, prependSleep_fst, prependSleep_count]
    have h2 := ih (inv + 1) b2 (some (exhaustWrap (es inv)))
    have hidx : inv + 1 + f = inv + (f + 1) := by omega
    rw [hidx] at h2
    constructor
    · rw [h2.1]
    · rw [h2.2]

lemma retryGo_reaches_fatal (mb : ℚ) (att : Nat → Except ZError Payload) (e : ZError)
    (hk : e.kind = .authenticationFailure ∨ e.kind = .invalidRequest) :
    ∀ j inv b last fuel, j < fuel →
      (∀ i, i < j → ∃ e2, att (inv + i) = .error e2 ∧ retryable e2 = true) →
      att (inv + j) = .error e →
      (retryGo mb att inv b last fuel).1 = .failure e
      ∧ (retryGo mb att inv b last fuel).2.1 = inv + j + 1 := by
  intro j
  induction j with
  | zero =>
    intro inv b last fuel hfuel _ hej
    obtain ⟨f, rfl⟩ : ∃ f, fuel = f + 1 := ⟨fuel - 1, by omega⟩
    rw [retryGo_fatal mb att inv b last f e (by simpa using hej) hk]
    simp
  | succ jj ih =>
    intro inv b last fuel hfuel hpre hej
    obtain ⟨f, rfl⟩ : ∃ f, fuel = f + 1 := ⟨fuel - 1, by omega⟩
    obtain ⟨e0, he0, hr0⟩ := hpre 0 (by omega)
    obtain ⟨q, b2, hstep⟩ :=
      retryGo_retryable_step mb att inv b last f e0 (by simpa using he0) hr0
    rw [hstep, prependSleep_fst, prependSleep_count]
    have hrec := ih (inv + 1) b2 (some (exhaustWrap e0)) f (by omega)
      (fun i hi => by
        obtain ⟨e2, h1, h2⟩ := hpre (i + 1) (by omega)
        refine ⟨e2, ?_, h2⟩
        rw [show inv + 1 + i = inv + (i + 1) by omega]
        exact h1)
      (by rw [show inv + 1 + jj = inv + (jj + 1) by omega]; exact hej)
    exact ⟨hrec.1, by rw [hrec.2]; omega⟩

lemma capSeq_step (cap : ℚ) (hcap : 0 ≤ cap) (n : Nat) :
    min (capSeq cap n * 2) cap = capSeq cap (n + 1) := by
  unfold capSeq
  rcases le_total ((2 : ℚ) ^ n) cap with h | h
  · rw [min_eq_left h, pow_succ]
  · have h2 : (0 : ℚ) ≤ 2 ^ n := by positivity
    rw [min_eq_right h, min_eq_right (by linarith), min_eq_right (by
      calc cap ≤ 2 ^ n := h
        _ ≤ 2 ^ (n + 1) := by rw [pow_succ]; nlinarith)]

lemma retryGo_backoff_trace (mb : ℚ) (hmb : 0 ≤ mb) (att : Nat → Except ZError Payload)
    (hall : ∀ i, ∃ e, att i = .error e ∧ backoff_branch e = true) :
    ∀ fuel inv k last,
      (retryGo mb att inv (capSeq mb k) last fuel).2.2 =
        (List.range fuel).map fun i => capSeq mb (k + i) := by
  intro fuel
  induction fuel with
  | zero => intro inv k last; simp [retryGo]
  | succ f ih =>
    intro inv k last
    obtain ⟨e, he, hb⟩ := hall inv
    rw [retryGo_backoff_step mb att inv _ last f e he hb, prependSleep_sleeps,
        capSeq_step mb hmb k, ih (inv + 1) (k + 1) (some (exhaustWrap e))]
    rw [List.range_succ_eq_map, List.map_cons, List.map_map]
    have hfun : ((fun i => capSeq mb (k + i)) ∘ Nat.succ) = fun i => capSeq mb (k + 1 + i) := by
      funext i
      simp [Function.comp]
      rw [show k + (i + 1) = k + 1 + i by omega]
    rw [hfun]
    simp

lemma retryGo_typed (mb : ℚ) (att : Nat → Except ZError Payload)
    (hra : ∀ i e, att i = .error e → raOk e = true) :
    ∀ fuel inv b last m, (retryGo mb att inv b last fuel).1 ≠ .untypedError m := by
  intro fuel
  induction fuel with
  | zero =>
    intro inv b last m
    cases last <;> simp [retryGo, exhaustResult]
  | succ f ih =>
    intro inv b last m
    cases hatt : att inv with
    | ok p => simp [retryGo, hatt]
    | error e =>
      by_cases hfat : e.kind = .authenticationFailure ∨ e.kind = .invalidRequest
      · rw [retryGo_fatal mb att inv b last f e hatt hfat]; simp
      · have hkr : retryable_kind e.kind = true := by
          rcases e with ⟨k, m2, sc, rd⟩
          cases k <;> simp_all [retryable_kind]
        have hr : retryable e = true := by
          simp [retryable, hkr, hra inv e hatt]
        obtain ⟨q, b2, hstep⟩ := retryGo_retryable_step mb att inv b last f e hatt hr
        rw [hstep, prependSleep_fst]
        exact ih (inv + 1) b2 (some (exhaustWrap e)) m

lemma refill_tokens_self (s : RateLimiter) (h : s.tokens ≤ (s.max_requests : ℚ)) :
    refill_tokens s s.last_refill = s := by
  rcases s with ⟨c, w, tk, lr⟩
  simp only [refill_tokens, sub_self, zero_mul, add_zero]
  simp only [RateLimiter.tokens] at h
  rw [min_eq_right h]

lemma acquire_token_int (c w k : Nat) (t : ℚ) (hk : k ≤ c) :
    acquire_token ⟨c, w, (k : ℚ), t⟩ t =
      if 1 ≤ k then (true, ⟨c, w, ((k - 1 : Nat) : ℚ), t⟩) else (false, ⟨c, w, (k : ℚ), t⟩) := by
  have href : refill_tokens ⟨c, w, (k : ℚ), t⟩ t = ⟨c, w, (k : ℚ), t⟩ :=
    refill_tokens_self _ ((by exact_mod_cast hk : ((k : ℚ)) ≤ ((c : ℚ))))
  by_cases h1 : 1 ≤ k
  · rw [if_pos h1]
    simp only [acquire_token, href]
    rw [if_pos (by exact_mod_cast h1)]
    have : ((k : ℚ)) - 1 = ((k - 1 : Nat) : ℚ) := by
      push_cast [h1]
      ring
    simp [this]
  · rw [if_neg h1]
    simp only [acquire_token, href]
    rw [if_neg (by exact_mod_cast h1)]

lemma acquireRun_int (c w : Nat) (t : ℚ) :
    ∀ n k, k ≤ c →
      (acquireRun ⟨c, w, (k : ℚ), t⟩ t n).1 =
        List.replicate (min n k) true ++ List.replicate (n - k) false := by
  intro n
  induction n with
  | zero => intro k hk; simp [acquireRun]
  | succ m ih =>
    intro k hk
    rcases Nat.eq_zero_or_pos k with hzero | hpos
    · subst hzero
      have hacq := acquire_token_int c w 0 t (by omega)
      rw [if_neg (by omega)] at hacq
      simp only [acquireRun, hacq]
      rw [ih 0 (by omega)]
      simp only [Nat.min_zero, List.replicate_zero, List.nil_append, Nat.sub_zero,
        List.replicate_succ]
    · have hacq := acquire_token_int c w k t hk
      rw [if_pos (show 1 ≤ k by omega)] at hacq
      simp only [acquireRun, hacq]
      rw [ih (k - 1) (by omega)]
      have hmin : min (m + 1) k = min m (k - 1) + 1 := by omega
      have hsub : m + 1 - k = m - (k - 1) := by omega
      rw [hmin, hsub, List.replicate_succ]
      simp

lemma refill_tokens_mono (s : RateLimiter) (now : ℚ)
    (h : s.tokens ≤ (s.max_requests : ℚ)) (hle : s.last_refill ≤ now) :
    s.tokens ≤ (refill_tokens s now).tokens := by
  rcases s with ⟨c, w, tk, lr⟩
  simp only [RateLimiter.tokens, RateLimiter.max_requests, RateLimiter.last_refill] at *
  simp only [refill_tokens]
  refine le_min h ?_
  have hadd : 0 ≤ (now - lr) * ((c : ℚ) / (w : ℚ)) :=
    mul_nonneg (by linarith) (by positivity)
  linarith

lemma refill_tokens_bounds (s : RateLimiter) (now : ℚ)
    (h0 : 0 ≤ s.tokens) (hle : s.last_refill ≤ now) :
    0 ≤ (refill_tokens s now).tokens
    ∧ (refill_tokens s now).tokens ≤ (s.max_requests : ℚ) := by
  rcases s with ⟨c, w, tk, lr⟩
  simp only [RateLimiter.tokens, RateLimiter.last_refill] at *
  simp only [refill_tokens, RateLimiter.max_requests]
  constructor
  · refine le_min (by positivity) ?_
    have hadd : 0 ≤ (now - lr) * ((c : ℚ) / (w : ℚ)) :=
      mul_nonneg (by linarith) (by positivity)
    linarith
  · exact min_le_left _ _

lemma acquire_token_bounds (s : RateLimiter) (now : ℚ)
    (h0 : 0 ≤ s.tokens) (hle : s.last_refill ≤ now) :
    0 ≤ (acquire_token s now).2.tokens
    ∧ (acquire_token s now).2.tokens ≤ (s.max_requests : ℚ) := by
  obtain ⟨hlo, hhi⟩ := refill_tokens_bounds s now h0 hle
  have hmax : (refill_tokens s now).max_requests = s.max_requests := by
    rcases s with ⟨c, w, tk, lr⟩; rfl
  unfold acquire_token
  by_cases h1 : 1 ≤ (refill_tokens s now).tokens
  · rw [if_pos h1]
    constructor
    · simp only [RateLimiter.tokens]; linarith
    · simp only [RateLimiter.tokens]; linarith
  · rw [if_neg h1]
    exact ⟨hlo, hhi⟩

lemma splitChar_of_not_contains (sep : Char) (cs : List Char)
    (h : cs.contains sep = false) : splitChar sep cs = [cs] := by
  induction cs with
  | nil => rfl
  | cons c cst ih =>
    simp only [List.contains_cons, Bool.or_eq_false_iff, beq_eq_false_iff_ne, ne_eq] at h
    unfold splitChar
    rw [ih h.2, if_neg (Ne.symm h.1)]

lemma mapM_transform_obj (l : List Payload) :
    List.mapM (fun j => match j with | Json.obj kvs => transformResult kvs | _ => none)
        (l.map Json.obj) = l.mapM transformResult := by
  induction l with
  | nil => rfl
  | cons a t ih => rw [List.map_cons, List.mapM_cons, List.mapM_cons, ih]

/-- C7 counterexample: the URL `https://example.com` (no path segment) splits
into three segments `["https:", "", "example.com"]`, so the code derives the
domain `example.com`, not the empty string the claim asserts. -/
theorem c7_domain_no_path_counterexample :
    extract_domain "https://example.com" = "example.com"
    ∧ ("example.com" : String) ≠ "" := by
  exact ⟨by decide, by decide⟩

/-- C7 (amended): the transformer derives `domain` as the third `/`-delimited
segment of the url when the url has at least three `/`-split segments, and
the empty string otherwise; `https://example.com/path?q=1` yields
`example.com`, and the no-path URL `https://example.com` also yields
`example.com` (it still has exactly three `/`-split segments); fewer than
three segments give `""` as for `example.com/path`, and the third segment
may itself be empty, as for `https://` (segments `["https:", "", ""]`). -/
theorem extract_domain_spec (url : String) :
    ((pySplit '/' url).length ≤ 2 → extract_domain url = "")
    ∧ (2 < (pySplit '/' url).length → extract_domain url = (pySplit '/' url).getD 2 "")
    ∧ extract_domain "https://example.com/path?q=1" = "example.com"
    ∧ extract_domain "https://example.com" = "example.com"
    ∧ extract_domain "example.com/path" = ""
    ∧ extract_domain "https://" = "" := by
  refine ⟨?_, ?_, by decide, by decide, by decide, by decide⟩
  · intro h
    unfold extract_domain
    rw [if_neg]
    simp only [Bool.and_eq_true, decide_eq_true_eq]
    rintro ⟨-, h2⟩
    omega
  · intro h
    have hcont : url.data.contains '/' = true := by
      by_contra hc
      have hs := splitChar_of_not_contains '/' url.data (by simpa using hc)
      have hlen : (pySplit '/' url).length = 1 := by simp [pySplit, hs]
      omega
    unfold extract_domain
    rw [if_pos]
    simp only [hcont, Bool.true_and, decide_eq_true_eq]
    omega

/-- C7 witness: `https://a.com/x` has four `/`-split segments and the code
picks the third, `a.com`. -/
theorem extract_domain_spec_witness :
    2 < (pySplit '/' "https://a.com/x").length
    ∧ extract_domain "https://a.com/x" = (pySplit '/' "https://a.com/x").getD 2 "" :=
  ⟨by decide, (extract_domain_spec "https://a.com/x").2.1 (by decide)⟩

/-- C8: round-trip of the documented payload, plus the general defaults: for
any payload holding only a `results` array of well-formed entries, the
transformer emits the results in the received order, `total_results` defaults
to the count of returned results, `search_time` to `0.0`, `has_more` to
`false` and `next_page_token` to absent. -/
theorem transform_round_trip :
    transform_api_response
        [("results", Json.arr [Json.obj
          [("title", Json.str "T"), ("url", Json.str "https://a.com/x"),
           ("snippet", Json.str "s"), ("position", Json.num 1)]])] "q" "web"
      = some ⟨"q", "web", 1, [⟨"T", "https://a.com/x", "s", 1, "a.com", none, none⟩],
          0, false, none⟩
    ∧ ∀ (l : List Payload) (rs : List SearchResult) (q st : String),
        l.mapM transformResult = some rs →
        transform_api_response [("results", Json.arr (l.map Json.obj))] q st
          = some ⟨q, st, (rs.length : Int), rs, 0, false, none⟩ := by
  constructor
  · rfl
  · intro l rs q st h
    rw [show transform_api_response [("results", Json.arr (l.map Json.obj))] q st
        = (List.mapM
            (fun j => match j with | Json.obj kvs => transformResult kvs | _ => none)
            (l.map Json.obj)).bind
            (fun results =>
              some ⟨q, st, (results.length : Int), results, 0, false, none⟩) from rfl,
      mapM_transform_obj, h]
    rfl

/-- C8 witness: the general clause of `transform_round_trip` applied to a
two-entry payload, checking order preservation and the count default. -/
theorem transform_round_trip_witness :
    transform_api_response
        [("results", Json.arr
          [Json.obj [("title", Json.str "A"), ("url", Json.str "https://a.com/1"),
             ("snippet", Json.str "sa"), ("position", Json.num 1)],
           Json.obj [("title", Json.str "B"), ("url", Json.str "https://b.com/2"),
             ("snippet", Json.str "sb"), ("position", Json.num 2)]])] "qq" "news"
      = some ⟨"qq", "news",
          ((([⟨"A", "https://a.com/1", "sa", 1, "a.com", none, none⟩,
              ⟨"B", "https://b.com/2", "sb", 2, "b.com", none, none⟩]
              : List SearchResult)).length : Int),
          [⟨"A", "https://a.com/1", "sa", 1, "a.com", none, none⟩,
           ⟨"B", "https://b.com/2", "sb", 2, "b.com", none, none⟩], 0, false, none⟩ :=
  transform_round_trip.2
    [[("title", Json.str "A"), ("url", Json.str "https://a.com/1"),
      ("snippet", Json.str "sa"), ("position", Json.num 1)],
     [("title", Json.str "B"), ("url", Json.str "https://b.com/2"),
      ("snippet", Json.str "sb"), ("position", Json.num 2)]]
    [⟨"A", "https://a.com/1", "sa", 1, "a.com", none, none⟩,
     ⟨"B", "https://b.com/2", "sb", 2, "b.com", none, none⟩] "qq" "news" rfl

/-- C1 counterexample: a transport failing every attempt with the
`ZAIServerError` `serverBoom` under `max_retries = 3` is invoked 4 times, but
the propagated failure is a fresh base `ZAIApiError` built from
`str(last_exception)`: the kind changes from `serverFailure` to `apiFailure`
and the status code (500) and response data are dropped. -/
theorem c1_exhaustion_counterexample :
    (make_request_with_retry 3 1 60 (fun _ => .error serverBoom)).1
      = .failure ⟨.apiFailure, "boom", none, []⟩
    ∧ (make_request_with_retry 3 1 60 (fun _ => .error serverBoom)).2.1 = 4
    ∧ ZErrorKind.apiFailure ≠ ZErrorKind.serverFailure
    ∧ serverBoom.status_code = some 500
    ∧ serverBoom.response_data.length = 1 := by
  have h := retryGo_exhaust 60 (fun _ => .error serverBoom) (fun _ => serverBoom)
    (fun i => rfl) (fun i => show retryable serverBoom = true by decide) 3 0 1 none
  exact ⟨h.1, h.2, by decide, rfl, rfl⟩

/-- C1 (amended): for every transport failing all attempts with retryable
kinds (whose rate-limit `retry_after` values, if truthy, convert) and
`max_retries = 3`, the controller invokes the transport exactly 4 times and
then propagates the recorded last exception: the rate-limit failure itself
when the last kind was `rateLimitExceeded`, otherwise a base `apiFailure`
carrying only the last failure's message (status code and data dropped). -/
theorem retry_exhaustion (ib mb : ℚ) (es : Nat → ZError)
    (hr : ∀ i, retryable (es i) = true) :
    (make_request_with_retry 3 ib mb (fun i => .error (es i))).1
      = .failure (exhaustWrap (es 3))
    ∧ (make_request_with_retry 3 ib mb (fun i => .error (es i))).2.1 = 4 := by
  have h := retryGo_exhaust mb (fun i => .error (es i)) es (fun i => rfl) hr 3 0 ib none
  exact ⟨h.1, h.2⟩

/-- C1 witness: the amended claim at a transport that always rate-limits
without `retry_after`: 4 invocations, last failure propagated unchanged. -/
theorem retry_exhaustion_witness :
    (make_request_with_retry 3 1 60
        (fun _ => .error ⟨.rateLimitExceeded, "rl", some 429, []⟩)).1
      = .failure (exhaustWrap ⟨.rateLimitExceeded, "rl", some 429, []⟩)
    ∧ (make_request_with_retry 3 1 60
        (fun _ => .error ⟨.rateLimitExceeded, "rl", some 429, []⟩)).2.1 = 4 :=
  retry_exhaustion 1 60 (fun _ => ⟨.rateLimitExceeded, "rl", some 429, []⟩)
    (fun i => show retryable ⟨.rateLimitExceeded, "rl", some 429, []⟩ = true by decide)

/-- C3: if the attempts before index `j` are retryable failures and the
`j`-th transport invocation raises `ZAIAuthenticationError` or
`ZAIInvalidRequestError`, the controller performs no further attempt
(exactly `j + 1` invocations in total) and propagates that very failure
object unchanged — same kind, message, status and data. -/
theorem no_retry_on_fatal (mr : Nat) (ib mb : ℚ) (att : Nat → Except ZError Payload)
    (j : Nat) (e : ZError) (hj : j ≤ mr)
    (hpre : ∀ i, i < j → ∃ e2, att i = .error e2 ∧ retryable e2 = true)
    (hej : att j = .error e)
    (hk : e.kind = .authenticationFailure ∨ e.kind = .invalidRequest) :
    (make_request_with_retry mr ib mb att).1 = .failure e
    ∧ (make_request_with_retry mr ib mb att).2.1 = j + 1 := by
  have h := retryGo_reaches_fatal mb att e hk j 0 ib none (mr + 1) (by omega)
    (fun i hi => by simpa using hpre i hi) (by simpa using hej)
  exact ⟨h.1, by have := h.2; simpa using this⟩

/-- C3 witness: one `ZAIServerError`, then a 401 `ZAIAuthenticationError`:
the loop stops after the second invocation and raises that exact failure. -/
theorem no_retry_on_fatal_witness :
    (make_request_with_retry 3 1 60
        (fun i => .error (if i = 0 then serverBoom else authFatal))).1
      = .failure authFatal
    ∧ (make_request_with_retry 3 1 60
        (fun i => .error (if i = 0 then serverBoom else authFatal))).2.1 = 2 :=
  no_retry_on_fatal 3 1 60 (fun i => .error (if i = 0 then serverBoom else authFatal))
    1 authFatal (by decide)
    (fun i hi => ⟨serverBoom, by
        have h0 : i = 0 := by omega
        subst h0
        rfl,
      show retryable serverBoom = true by decide⟩)
    rfl (Or.inl rfl)

/-- C4 counterexample: a rate-limit failure whose `response_data` carries the
server-specified duration `retry_after: 0`.  Being falsy, `if retry_after:`
sends the controller down the exponential branch: it sleeps the current
backoff `1.0` (not the carried `0`) and doubles the backoff (the second sleep
is `2.0`), contradicting the claim for this carried duration. -/
theorem c4_retry_after_zero_counterexample :
    rateLimitZero.response_data.lookup "retry_after" = some (Json.num 0)
    ∧ (make_request_with_retry 1 1 60 (fun _ => .error rateLimitZero)).2.2 = [1, 2]
    ∧ (1 : ℚ) ≠ 0 := by
  refine ⟨rfl, ?_, by norm_num⟩
  have h := retryGo_backoff_trace 60 (by norm_num)
    (fun _ => .error rateLimitZero)
    (fun i => ⟨rateLimitZero, rfl, show backoff_branch rateLimitZero = true by decide⟩)
    2 0 0 none
  have h1 : capSeq 60 0 = (1 : ℚ) := by norm_num [capSeq]
  rw [make_request_with_retry, show (1 : ℚ) = capSeq 60 0 from h1.symm, h]
  norm_num [List.range_succ, capSeq]

/-- C4 (amended): when the retry controller handles a `ZAIRateLimitError`:
if `response_data` carries a truthy `retry_after` value whose `float`
conversion succeeds, it sleeps exactly that converted duration and continues
with the backoff value unchanged; if the entry is absent or falsy (such as
`0` or `""`), it sleeps the current backoff and replaces it by
`min(current × 2, max_backoff)`; in all three cases exactly one further
transport invocation is consumed (the loop continues at attempt index
`inv + 1`). -/
theorem rate_limit_step (mb : ℚ) (att : Nat → Except ZError Payload) (inv : Nat)
    (b : ℚ) (last : Option ZError) (fuel : Nat) (e : ZError)
    (he : att inv = .error e) (hk : e.kind = .rateLimitExceeded) :
    (∀ v q, e.response_data.lookup "retry_after" = some v → pyTruthy v = true →
        pyFloat v = some q →
        retryGo mb att inv b last (fuel + 1)
          = prependSleep q (retryGo mb att (inv + 1) b (some e) fuel))
    ∧ (e.response_data.lookup "retry_after" = none →
        retryGo mb att inv b last (fuel + 1)
          = prependSleep b (retryGo mb att (inv + 1) (min (b * 2) mb) (some e) fuel))
    ∧ (∀ v, e.response_data.lookup "retry_after" = some v → pyTruthy v = false →
        retryGo mb att inv b last (fuel + 1)
          = prependSleep b (retryGo mb att (inv + 1) (min (b * 2) mb) (some e) fuel)) := by
  have hw : exhaustWrap e = e := by simp [exhaustWrap, hk]
  refine ⟨?_, ?_, ?_⟩
  · intro v q hv ht hf
    exact retryGo_override_step mb att inv b last fuel e v q he hk hv ht hf
  · intro hv
    have hb : backoff_branch e = true := by
      rcases e with ⟨k, msg, sc, rd⟩
      subst hk
      simp only [backoff_branch]
      simp only [ZError.response_data] at hv
      simp only [hv]
    have := retryGo_backoff_step mb att inv b last fuel e he hb
    rwa [hw] at this
  · intro v hv ht
    have hb : backoff_branch e = true := by
      rcases e with ⟨k, msg, sc, rd⟩
      subst hk
      simp only [backoff_branch]
      simp only [ZError.response_data] at hv
      simp only [hv, ht, Bool.not_false]
    have := retryGo_backoff_step mb att inv b last fuel e he hb
    rwa [hw] at this

/-- C4 witness: `retry_after: 5` (truthy, convertible) makes the controller
sleep exactly `5` and continue with the backoff value `1` unchanged. -/
theorem rate_limit_step_witness :
    retryGo 60 (fun _ => .error rateLimitFive) 0 1 none 2
      = prependSleep 5 (retryGo 60 (fun _ => .error rateLimitFive) 1 1
          (some rateLimitFive) 1) :=
  (rate_limit_step 60 (fun _ => .error rateLimitFive) 0 1 none 1 rateLimitFive
    rfl rfl).1 (Json.num 5) 5 rfl (by decide) rfl

/-- C5: with `initial_backoff = 1.0` and `max_backoff = 60.0`, a run whose
every attempt fails down the exponential branch (no server-specified
override) sleeps exactly `min(2^n, 60)` before the n-th retry — the sequence
`1, 2, 4, 8, ..., capped at 60` — which is nondecreasing, never exceeds the
cap, and is produced deterministically with no jitter. -/
theorem backoff_monotone_capped (m : Nat) (att : Nat → Except ZError Payload)
    (hall : ∀ i, ∃ e, att i = .error e ∧ backoff_branch e = true) :
    (make_request_with_retry m 1 60 att).2.2
      = (List.range (m + 1)).map (fun n => min ((2 : ℚ) ^ n) 60)
    ∧ (∀ i j, i ≤ j → min ((2 : ℚ) ^ i) 60 ≤ min ((2 : ℚ) ^ j) 60)
    ∧ (∀ x ∈ (make_request_with_retry m 1 60 att).2.2, x ≤ 60) := by
  have htr : (make_request_with_retry m 1 60 att).2.2
      = (List.range (m + 1)).map (fun n => min ((2 : ℚ) ^ n) 60) := by
    have h1 : (1 : ℚ) = capSeq 60 0 := by norm_num [capSeq]
    rw [make_request_with_retry, h1,
      retryGo_backoff_trace 60 (by norm_num) att hall (m + 1) 0 0 none]
    simp [capSeq]
  refine ⟨htr, ?_, ?_⟩
  · intro i j hij
    exact min_le_min (pow_le_pow_right₀ (by norm_num) hij) le_rfl
  · intro x hx
    rw [htr] at hx
    obtain ⟨n, -, rfl⟩ := List.mem_map.mp hx
    exact min_le_right _ _

/-- C5 witness: two always-`ZAIServerError` attempts sleep `1` then `2`. -/
theorem backoff_monotone_capped_witness :
    (make_request_with_retry 1 1 60 (fun _ => .error serverBoom)).2.2
      = (List.range 2).map (fun n => min ((2 : ℚ) ^ n) 60)
    ∧ (make_request_with_retry 1 1 60 (fun _ => .error serverBoom)).2.2 = [1, 2] := by
  have h := backoff_monotone_capped 1 (fun _ => .error serverBoom)
    (fun i => ⟨serverBoom, rfl, show backoff_branch serverBoom = true by decide⟩)
  refine ⟨h.1, ?_⟩
  rw [h.1]
  norm_num [List.range_succ]

/-- C2 counterexample: a 401 response whose non-empty body fails to parse is
not classified as `AuthenticationFailure`: the `JSONDecodeError` raised while
reading the error body escapes to the `RequestException` handler and comes
back as a generic `ApiFailure` with no status code. -/
theorem c2_unparseable_401_counterexample :
    make_request true 30 (.response 401 (.unparseable "Expecting value"))
      = .error ⟨.apiFailure, "Request failed: Expecting value", none, []⟩
    ∧ ZErrorKind.apiFailure ≠ ZErrorKind.authenticationFailure := by
  exact ⟨rfl, by decide⟩

/-- C2 (amended): `_make_request` classifies deterministically by status code
for every response whose body is absent or parses: 401 → authentication
failure, 429 → rate limit, 400 → invalid request, 5xx → server failure, any
other non-200 → generic API failure, each carrying the status code and the
parsed body (`{}` when the body is absent); a 200 whose body fails to parse —
and any non-200 whose non-empty body fails to parse — yields a generic
`ApiFailure`, as do network timeouts and connection failures. -/
theorem make_request_classification (t : Nat) (kvs : Payload) (s : Nat) (m : String) :
    (make_request true t (.response 401 (.parseable kvs))
      = .error ⟨.authenticationFailure,
          "Authentication failed. Please check your API key.", some 401, kvs⟩)
    ∧ (make_request true t (.response 401 .empty)
      = .error ⟨.authenticationFailure,
          "Authentication failed. Please check your API key.", some 401, []⟩)
    ∧ (make_request true t (.response 429 (.parseable kvs))
      = .error ⟨.rateLimitExceeded,
          "Rate limit exceeded. Please try again later.", some 429, kvs⟩)
    ∧ (make_request true t (.response 400 (.parseable kvs))
      = .error ⟨.invalidRequest,
          "Invalid request. Please check your parameters.", some 400, kvs⟩)
    ∧ (500 ≤ s → s < 600 →
        make_request true t (.response s (.parseable kvs))
          = .error ⟨.serverFailure,
              "Server error with status code " ++ toString s, some s, kvs⟩)
    ∧ (s ≠ 200 → s ≠ 401 → s ≠ 429 → s ≠ 400 → ¬(500 ≤ s ∧ s < 600) →
        make_request true t (.response s (.parseable kvs))
          = .error ⟨.apiFailure,
              "API request failed with status code " ++ toString s, some s, kvs⟩)
    ∧ (make_request true t (.response 200 (.unparseable m))
        = .error ⟨.apiFailure, "Request failed: " ++ m, none, []⟩)
    ∧ (make_request true t .timeout
        = .error ⟨.apiFailure,
            "Request timed out after " ++ toString t ++ " seconds", none, []⟩)
    ∧ (make_request true t .connectionError
        = .error ⟨.apiFailure, "Failed to connect to the Z.AI API", none, []⟩)
    ∧ (make_request true t (.response 200 (.parseable kvs)) = .ok kvs) := by
  refine ⟨rfl, rfl, rfl, rfl, ?_, ?_, rfl, rfl, rfl, rfl⟩
  · intro h5 h6
    have h401 : ¬(s = 401) := by omega
    have h429 : ¬(s = 429) := by omega
    have h400 : ¬(s = 400) := by omega
    simp [make_request, classified, error_body, h401, h429, h400, h5, h6]
  · intro h200 h401 h429 h400 h5xx
    simp [make_request, classified, error_body, h200, h401, h429, h400, h5xx]

/-- C2 witness: the 5xx and other-status clauses at statuses 503 and 302. -/
theorem make_request_classification_witness :
    (make_request true 30 (.response 503 (.parseable []))
      = .error ⟨.serverFailure, "Server error with status code " ++ toString 503,
          some 503, []⟩)
    ∧ (make_request true 30 (.response 302 (.parseable []))
      = .error ⟨.apiFailure, "API request failed with status code " ++ toString 302,
          some 302, []⟩) :=
  ⟨(make_request_classification 30 [] 503 "x").2.2.2.2.1 (by norm_num) (by norm_num),
   (make_request_classification 30 [] 302 "x").2.2.2.2.2.1 (by norm_num) (by norm_num)
     (by norm_num) (by norm_num) (by norm_num)⟩

/-- C6: from a freshly filled bucket of capacity `c > 0`, a sequence of
`acquire_token` calls with no elapsed time succeeds on exactly the first `c`
calls and fails on every later one; moreover one `acquire_token` step
preserves `0 ≤ tokens ≤ capacity` (for any non-backwards clock), and a refill
alone never decreases the token count. -/
theorem acquire_token_admission (c w : Nat) (_hc : 0 < c) (_hw : 0 < w) :
    (∀ (n : Nat) (t0 : ℚ),
        (acquireRun (RateLimiter.init c w t0) t0 n).1
          = List.replicate (min n c) true ++ List.replicate (n - c) false)
    ∧ (∀ (s : RateLimiter) (now : ℚ), 0 ≤ s.tokens → s.last_refill ≤ now →
        0 ≤ (acquire_token s now).2.tokens
        ∧ (acquire_token s now).2.tokens ≤ (s.max_requests : ℚ))
    ∧ (∀ (s : RateLimiter) (now : ℚ), s.tokens ≤ (s.max_requests : ℚ) →
        s.last_refill ≤ now → s.tokens ≤ (refill_tokens s now).tokens) := by
  refine ⟨?_, ?_, ?_⟩
  · intro n t0
    exact acquireRun_int c w t0 n c le_rfl
  · intro s now h0 h2
    exact acquire_token_bounds s now h0 h2
  · intro s now h1 h2
    exact refill_tokens_mono s now h1 h2

/-- C6 witness: capacity 2, three immediate calls: true, true, false; and a
single step from one token stays within bounds. -/
theorem acquire_token_admission_witness :
    (acquireRun (RateLimiter.init 2 60 0) 0 3).1
      = List.replicate (min 3 2) true ++ List.replicate (3 - 2) false
    ∧ (0 : ℚ) ≤ (acquire_token ⟨2, 60, 1, 0⟩ 0).2.tokens := by
  constructor
  · exact (acquire_token_admission 2 60 (by norm_num) (by norm_num)).1 3 0
  · exact ((acquire_token_admission 2 60 (by norm_num) (by norm_num)).2.1 ⟨2, 60, 1, 0⟩ 0
      (show (0 : ℚ) ≤ 1 by norm_num) (show (0 : ℚ) ≤ 0 by norm_num)).1

/-- C9 counterexample: `num_results = 0` makes `SearchRequest` construction
raise a pydantic `ValidationError` before any transport call — which is not
one of the typed failure kinds of `exceptions.py`, contradicting the claim
that locally invalid parameters are raised as a typed failure. -/
theorem c9_validation_counterexample :
    search badRequest 3 1 60 (fun _ => .error serverBoom)
      = (.validationError ["num_results"], 0)
    ∧ typed_or_response (.validationError ["num_results"]) = false :=
  ⟨rfl, rfl⟩

/-- C9 (amended): locally invalid `SearchRequest` parameters surface as a
pydantic validation error — not a §7 typed kind — before any network call
(zero transport invocations, never retried); for valid parameters, whenever
every transport failure's `retry_after` value is absent, falsy or
convertible, the caller receives a `SearchResponse`, a typed §7 failure, or
the response-model validation error for an ill-shaped success payload. -/
theorem search_typed_outcomes (r : SearchRequest) (mr : Nat) (ib mb : ℚ)
    (att : Nat → Except ZError Payload) :
    (search_request_errors r ≠ [] →
      search r mr ib mb att = (.validationError (search_request_errors r), 0))
    ∧ ((∀ i e, att i = .error e → raOk e = true) → search_request_errors r = [] →
        typed_or_response (search r mr ib mb att).1 = true
        ∨ (search r mr ib mb att).1 = .untypedError "response model validation") := by
  constructor
  · intro hne
    unfold search mk_search_request
    cases herr : search_request_errors r with
    | nil => exact absurd herr hne
    | cons a l => simp [herr]
  · intro hcl herr
    have hok : mk_search_request r = .ok r := by
      unfold mk_search_request
      rw [herr]
    have hsearch : search r mr ib mb att =
        (match (make_request_with_retry mr ib mb att).1 with
        | .success payload =>
          (match transform_api_response payload r.query r.search_type with
          | some resp => (.response resp, (make_request_with_retry mr ib mb att).2.1)
          | none => (.untypedError "response model validation",
              (make_request_with_retry mr ib mb att).2.1))
        | .failure e => (.typedFailure e, (make_request_with_retry mr ib mb att).2.1)
        | .untypedError m2 =>
            (.untypedError m2, (make_request_with_retry mr ib mb att).2.1)) := by
      unfold search
      rw [hok]
    cases hout : (make_request_with_retry mr ib mb att).1 with
    | success payload =>
      cases htr : transform_api_response payload r.query r.search_type with
      | some resp =>
        left
        rw [hsearch]
        simp only [hout, htr]
        rfl
      | none =>
        right
        rw [hsearch]
        simp only [hout, htr]
    | failure e =>
      left
      rw [hsearch]
      simp only [hout]
      rfl
    | untypedError m2 =>
      exfalso
      exact retryGo_typed mb att hcl (mr + 1) 0 ib none m2
        (by simpa [make_request_with_retry] using hout)

/-- C9 witness: an out-of-range request validates before any network call;
a valid request against an always-401 transport yields a typed outcome. -/
theorem search_typed_outcomes_witness :
    search badRequest 3 1 60 (fun _ => .error authFatal)
      = (.validationError (search_request_errors badRequest), 0)
    ∧ (typed_or_response
        (search ⟨"q", 10, none, none, "web", none, none, "moderate"⟩ 3 1 60
          (fun _ => .error authFatal)).1 = true
       ∨ (search ⟨"q", 10, none, none, "web", none, none, "moderate"⟩ 3 1 60
          (fun _ => .error authFatal)).1 = .untypedError "response model validation") :=
  ⟨(search_typed_outcomes badRequest 3 1 60 (fun _ => .error authFatal)).1 (by decide),
   (search_typed_outcomes ⟨"q", 10, none, none, "web", none, none, "moderate"⟩ 3 1 60
      (fun _ => .error authFatal)).2
      (fun i e he => by
        injection he with h
        rw [← h]
        decide)
      rfl⟩

/-- C10: with no authenticator argument, no api-key argument and a falsy
config credential, agent construction succeeds with `authenticator = None`
(the `ZAIAuthenticationError` is caught); the missing credential surfaces
only on a request: the single-attempt transport raises an
`AuthenticationFailure` independently of anything the network would do
(before any network call), and the retry controller propagates it after
exactly one invocation, never retrying. -/
theorem missing_credential_deferred (cfg_key : String)
    (hkey : optStrTruthy (some cfg_key) = false) (t mr : Nat) (ib mb : ℚ) :
    agent_init_authenticator none none cfg_key = .ok none
    ∧ (∀ net net2, make_request false t net = make_request false t net2)
    ∧ (∀ net, make_request false t net = .error noAuthenticatorError)
    ∧ (∀ net, make_request_with_retry mr ib mb (fun _ => make_request false t net)
        = (.failure noAuthenticatorError, 1, [])) := by
  refine ⟨?_, fun net net2 => rfl, fun net => rfl, fun net => ?_⟩
  · have hemp : cfg_key.isEmpty = true := by simpa [optStrTruthy] using hkey
    simp [agent_init_authenticator, authenticator_init, optStrTruthy, hemp]
  · have h := retryGo_fatal mb (fun _ => make_request false t net) 0 ib none mr
      noAuthenticatorError rfl (Or.inl rfl)
    simpa [make_request_with_retry] using h

/-- C10 witness: empty config credential, concrete shapes. -/
theorem missing_credential_deferred_witness :
    agent_init_authenticator none none "" = .ok none
    ∧ make_request false 30 (.response 200 (.parseable [])) = .error noAuthenticatorError
    ∧ make_request_with_retry 3 1 60
        (fun _ => make_request false 30 (.response 200 (.parseable [])))
      = (.failure noAuthenticatorError, 1, []) := by
  have h := missing_credential_deferred "" (by decide) 30 3 1 60
  exact ⟨h.1, h.2.2.1 _, h.2.2.2 _⟩
